import Mathlib

/-!
Shallow embedding of `main.py` from the fnbnet-pytorch repository: a k-fold
cross-validation training harness.  Pure fragments of the Python code become
Lean functions; the external collaborators (model zoo, lightning trainer,
dataloaders, metric functions) are abstracted as a deterministic environment
record, matching the `deterministic=True`, seeded configuration the code
requests.  Python floats are modelled as exact rationals (no claim below
depends on rounding), Python strings as Lean strings, and exceptions as
`Except`.
-/

namespace FnB

/-! ### Python string primitives -/

/-- Whether the first list is a leading segment of the second (helper for the
Python substring test). -/
def leadEq : List Char → List Char → Bool
  | [], _ => true
  | _ :: _, [] => false
  | a :: as, b :: bs => a == b && leadEq as bs

/-- Whether `needle` occurs as a contiguous run inside the list. -/
def subOccurs (needle : List Char) : List Char → Bool
  | [] => needle.isEmpty
  | c :: rest => leadEq needle (c :: rest) || subOccurs needle rest

/-- Models the Python substring test `needle in hay` for strings. -/
def pyContains (hay needle : String) : Bool :=
  subOccurs needle.toList hay.toList

/-- Models Python `str.isdigit()`: nonempty and every character a decimal
digit.  (Python additionally accepts some non-ASCII digit characters; every
string this program tests is ASCII, where the two notions agree.) -/
def pyIsDigit (s : String) : Bool :=
  !s.toList.isEmpty && s.toList.all Char.isDigit

/-- Value of a list of decimal digit characters. -/
def decVal (cs : List Char) : Nat :=
  cs.foldl (fun acc c => 10 * acc + (c.toNat - 48)) 0

/-- Models Python `int(s)` on strings: an optional sign followed by at least
one decimal digit, otherwise a `ValueError`.  (Python additionally strips
surrounding whitespace and permits underscore digit grouping; no input this
program ever feeds to `int` uses either.) -/
def pyInt (s : String) : Except String Int :=
  match s.toList with
  | [] => Except.error ("ValueError: invalid literal for int() with base 10: " ++ s)
  | c :: rest =>
    if c = '-' then
      if !rest.isEmpty && rest.all Char.isDigit then Except.ok (-(decVal rest : Int))
      else Except.error ("ValueError: invalid literal for int() with base 10: " ++ s)
    else if c = '+' then
      if !rest.isEmpty && rest.all Char.isDigit then Except.ok (decVal rest)
      else Except.error ("ValueError: invalid literal for int() with base 10: " ++ s)
    else
      if (c :: rest).all Char.isDigit then Except.ok (decVal (c :: rest))
      else Except.error ("ValueError: invalid literal for int() with base 10: " ++ s)

/-- Splitting a character list at every comma (helper). -/
def splitCommaAux (cur : List Char) : List Char → List (List Char)
  | [] => [cur.reverse]
  | c :: rest =>
    if c = ',' then cur.reverse :: splitCommaAux [] rest
    else splitCommaAux (c :: cur) rest

/-- Models Python `s.split(',')`. -/
def pySplitComma (s : String) : List String :=
  (splitCommaAux [] s.toList).map List.asString

/-- The comma-separated items of the `--gpu_ids` flag, as the code computes
them with `args.gpu_ids.split(',')`. -/
def gpuItems (gpu_ids : String) : List String :=
  pySplitComma gpu_ids

/-! ### The argparse configuration (main.py lines 136-161) -/

/-- The command-line configuration assembled by the argparse block of
`main.py` (lines 139-158), one field per flag, with the source defaults.
`dataset` is `Option String` because the flag has no `required=True` and its
argparse default is `None`.  There is no seed field: no flag of the parser
controls the random seed. -/
structure Args where
  dataset : Option String := none
  root : String := "/data/FallDownData"
  output_path : String := "/data/FallExperiments/ckpt_dir"
  num_classes : Nat := 2
  drop_rate : ℚ := 8 / 10
  base_model : String := "r2plus1d_18"
  n_fold : Nat := 5
  batch_size : Nat := 8
  epochs : Nat := 25
  sample_length : Nat := 10
  num_workers : Nat := 8
  monitor : String := "val_auc"
  use_lr_finder : Bool := false
  lr : ℚ := 1 / 10000
  coeff : ℚ := 0
  arch : String := "FnBNet"
  gpu_ids : String := "none"

/-- The `choices` list of the `--dataset` flag (main.py line 139). -/
def datasetChoices : List String := ["FDD", "URFD"]

/-- Models argparse handling of `--dataset` (main.py line 139:
`parser.add_argument('--dataset', type=str, choices=['FDD', 'URFD'])`).
The flag is optional (no `required=True`), so an omitted flag parses to the
default `None`; a supplied value is checked against the choices list and a
value outside it aborts parsing. -/
def parseDatasetArg : Option String → Except String (Option String)
  | none => Except.ok none
  | some v =>
    if v ∈ datasetChoices then Except.ok (some v)
    else Except.error "argument --dataset: invalid choice"

/-! ### Checkpoint monitor mode (main.py lines 122-123) -/

/-- The two modes of `pl.callbacks.ModelCheckpoint`. -/
inductive CkptMode where
  | min : CkptMode
  | max : CkptMode
deriving DecidableEq, Repr

/-- The mode handed to the checkpoint callback (main.py line 123):
`mode='min' if 'loss' in args.monitor else 'max'`. -/
def checkpointMode (monitor : String) : CkptMode :=
  if pyContains monitor "loss" then CkptMode.min else CkptMode.max

/-- The metric value of the checkpoint the callback keeps, given the start
value and the later observed values of the monitored metric: the minimum
under mode `min`, the maximum under mode `max` (the documented selection
behaviour of `ModelCheckpoint`). -/
def keptCheckpoint (monitor : String) (v : ℚ) (vs : List ℚ) : ℚ :=
  match checkpointMode monitor with
  | CkptMode.min => vs.foldl min v
  | CkptMode.max => vs.foldl max v

/-! ### Positive-class weight (main.py lines 63-68) -/

/-- The dataset-dependent positive-class weight (main.py lines 63-68):
`2.0` for `FDD`, `2.0` for `URFD`, `1.0` otherwise. -/
def posWeight (dataset : Option String) : ℚ :=
  if dataset = some "FDD" then 2
  else if dataset = some "URFD" then 2
  else 1

/-! ### RNG state and the external environment -/

/-- Global RNG state, threaded explicitly through the embedding. -/
abbrev RngState := Nat

/-- The state produced by `pl.seed_everything(seed)` (main.py line 54). -/
def seedState (seed : Nat) : RngState := seed

/-- The classification wrapper with the attributes `train_one_fold` mutates
onto it (main.py lines 58-72): the wrapped core model, the regularization
coefficient (set only for the `FnBNet` architecture), the learning rate, the
positive-class weight, and the metric-callback table (modelled by its keys). -/
structure Lit (μ : Type) where
  core : μ
  regularization_coeff : Option ℚ
  learning_rate : ℚ
  pos_weight : ℚ
  metrics_callbacks : List String

/-- The metric names of the callback table built in `run`
(main.py lines 106-112). -/
def fiveMetrics : List String := ["acc", "sens", "spec", "f1", "auc"]

/-- The wrapped model with attributes attached, exactly as main.py lines
56-72 build it from the configuration and a freshly constructed core. -/
def litOf (a : Args) (m : μ) : Lit μ :=
  { core := m
    regularization_coeff := if a.arch = "FnBNet" then some a.coeff else none
    learning_rate := a.lr
    pos_weight := posWeight a.dataset
    metrics_callbacks := fiveMetrics }

/-- The external collaborators (model zoo, lr finder, lightning fit/test) as
deterministic functions of their inputs and the RNG state, matching the
`deterministic=True`, globally seeded configuration the code requests.
`μ` is the type of core models, `κ` the type of metric-table column keys. -/
structure Env (μ κ : Type) where
  buildModel : String → Nat → String → ℚ → RngState → μ
  tuneLr : Lit μ → RngState → ℚ × RngState
  fit : Lit μ → CkptMode → Option (List Int) → RngState → μ × RngState
  test : μ → RngState → ((κ → ℚ) × List (κ → ℚ)) × RngState

/-- Observable events of a run, in program order. -/
inductive Event where
  | seedSet : Nat → Event
  | modelBuilt : Nat → Nat → Event
  | dataLoaded : Nat → Event
  | lrTuned : Nat → Event
  | fitted : Nat → Event
  | tested : Nat → Event
deriving DecidableEq, Repr

/-- The seed of a seed event, if any (helper for trace lemmas). -/
def seedOf : Event → Option Nat
  | Event.seedSet s => some s
  | _ => none

/-- Models the `gpus` argument of `pl.Trainer` (main.py lines 77-79):
`None if not torch.cuda.is_available() else [int(i) for i in
args.gpu_ids.split(',')]`.  A failing `int` conversion raises. -/
def mapPyInt : List String → Except String (List Int)
  | [] => Except.ok []
  | s :: rest =>
    match pyInt s with
    | Except.error e => Except.error e
    | Except.ok n =>
      match mapPyInt rest with
      | Except.error e => Except.error e
      | Except.ok ns => Except.ok (n :: ns)

/-- The trainer's GPU list (main.py lines 77-79). -/
def trainerGpus (gpu_ids : String) (cuda : Bool) : Except String (Option (List Int)) :=
  if cuda then (mapPyInt (gpuItems gpu_ids)).map (fun l => some l)
  else Except.ok none

/-- What one fold hands back on success: the wrapped model as configured (and
possibly lr-tuned), the trained core, the test-result record list returned by
`trainer.test` (one record per dataloader, here exactly one, listed first),
and the outgoing RNG state. -/
structure FoldPayload (μ κ : Type) where
  litUsed : Lit μ
  trained : μ
  testResults : List (κ → ℚ)
  rngOut : RngState

/-- Embedding of `train_one_fold` (main.py lines 50-91) for fold `fold`,
where `ctr` is the serial number of the model allocation this call performs
and `rng0` the incoming global RNG state.  In program order: seed the global
RNG to 0, construct a fresh core model and wrap it, prepare the dataloaders,
construct the trainer (where the GPU list may raise `ValueError`), optionally
run the lr finder, fit, then test.  The first component is the event trace,
the second the outcome. -/
def trainOneFold (env : Env μ κ) (a : Args) (fold ctr : Nat) (cuda : Bool)
    (_rng0 : RngState) : List Event × Except String (FoldPayload μ κ) :=
  let rng1 := seedState 0
  let lit := litOf a (env.buildModel a.arch a.num_classes a.base_model a.drop_rate rng1)
  let evHead := [Event.seedSet 0, Event.modelBuilt fold ctr, Event.dataLoaded fold]
  match trainerGpus a.gpu_ids cuda with
  | Except.error e => (evHead, Except.error e)
  | Except.ok gpus =>
    let tuned :=
      if a.use_lr_finder then
        let t := env.tuneLr lit rng1
        ({ lit with learning_rate := t.1 }, t.2)
      else (lit, rng1)
    let evTune := if a.use_lr_finder then [Event.lrTuned fold] else []
    let fitted := env.fit tuned.1 (checkpointMode a.monitor) gpus tuned.2
    let tested := env.test fitted.1 fitted.2
    (evHead ++ evTune ++ [Event.fitted fold, Event.tested fold],
     Except.ok
       { litUsed := tuned.1
         trained := fitted.1
         testResults := tested.1.1 :: tested.1.2
         rngOut := tested.2 })

/-- The ascending fold indices `s, s+1, ..., s+n-1`, i.e. Python
`range(s, s+n)`. -/
def rangeFrom (s : Nat) : Nat → List Nat
  | 0 => []
  | n + 1 => s :: rangeFrom (s + 1) n

/-- The fold loop of `run` (main.py lines 117-127) over a list of fold
indices, threading the model-allocation counter and the global RNG state and
stopping at the first raised exception, as Python does.  Returns the
concatenated event trace and, on success, the collected per-fold payloads in
fold order. -/
def runFolds (env : Env μ κ) (a : Args) (cuda : Bool) :
    List Nat → Nat → RngState → List Event × Except String (List (FoldPayload μ κ))
  | [], _, _ => ([], Except.ok [])
  | f :: fs, ctr, rng =>
    let step := trainOneFold env a f ctr cuda rng
    match step.2 with
    | Except.error e => (step.1, Except.error e)
    | Except.ok p =>
      let rest := runFolds env a cuda fs (ctr + 1) p.rngOut
      match rest.2 with
      | Except.error e => (step.1 ++ rest.1, Except.error e)
      | Except.ok ps => (step.1 ++ rest.1, Except.ok (p :: ps))

/-- The mean over the column `k` of a list of records, dividing by the number
of rows, as `pd.DataFrame(rows).mean()` does per column. -/
def colMean {κ : Type} (rows : List (κ → ℚ)) : κ → ℚ :=
  fun k => ((rows.map (fun r => r k)).sum) / (rows.length : ℚ)

/-- What `run` produces on success: the collected per-fold results and the
printed final summary. -/
structure RunOutput (μ κ : Type) where
  cvResults : List (FoldPayload μ κ)
  finalResult : κ → ℚ

/-- Embedding of `run` (main.py lines 94-133): invoke `train_one_fold` for
each fold in `range(1, args.n_fold + 1)`, then build the final summary as the
column-wise mean of `[cv_results[i][0] for i in range(args.n_fold)]`, the
first test record of each fold. -/
def run (env : Env μ κ) (a : Args) (cuda : Bool) (rng : RngState) :
    List Event × Except String (RunOutput μ κ) :=
  let r := runFolds env a cuda (rangeFrom 1 a.n_fold) 0 rng
  (r.1,
   r.2.map (fun ps =>
     { cvResults := ps
       finalResult := colMean (ps.map (fun p => p.testResults.headI)) }))

/-! ### The `__main__` startup block (main.py lines 15-16 and 163-172) -/

/-- The warning text of main.py lines 167-168. -/
def cpuWarnMsg : String :=
  "GPU computation is ignored, since your machine is CPU-only system"

/-- The action of the warnings filter installed at import time by
`warnings.filterwarnings("ignore")` (main.py line 16): it matches every
warning category. -/
def warnFilterAction : String := "ignore"

/-- The warnings actually displayed, given the `warnings.warn` calls made:
under the module-level ignore filter, none. -/
def shownWarnings (calls : List String) : List String :=
  if warnFilterAction = "ignore" then [] else calls

/-- The observable outcome of the startup checks: the `warnings.warn` calls
made, the warnings actually displayed, and the environment variables set. -/
structure StartupInfo where
  warnCalled : List String
  warnShown : List String
  envSet : List (String × String)
deriving DecidableEq, Repr

/-- Embedding of the gpu-id startup checks (main.py lines 163-171): when the
flag is not `"none"`, assert every comma item is all digits (an
`AssertionError` otherwise), warn — suppressed by the ignore filter — when
CUDA is unavailable, and set the CUDA environment variables. -/
def startupGpuCheck (gpu_ids : String) (cuda : Bool) : Except String StartupInfo :=
  if gpu_ids = "none" then Except.ok ⟨[], [], []⟩
  else if (gpuItems gpu_ids).all pyIsDigit then
    let calls := if cuda then [] else [cpuWarnMsg]
    Except.ok ⟨calls, shownWarnings calls,
      [("CUDA_DEVICE_ORDER", "PCI_BUS_ID"), ("CUDA_VISIBLE_DEVICES", gpu_ids)]⟩
  else Except.error "unrecognizable gpu ids"

/-- The observable outcome of the whole `__main__` block after argument
parsing: the startup info, the event trace, and the run outcome. -/
structure MainOutcome (μ κ : Type) where
  startup : StartupInfo
  events : List Event
  result : Except String (RunOutput μ κ)

/-- Embedding of the `__main__` block after argument parsing (main.py lines
163-172): run the gpu-id checks, then `run()`.  An `AssertionError` aborts
before `run` is entered, so its trace is empty — in particular no data
loading has occurred. -/
def mainProgram (env : Env μ κ) (a : Args) (cuda : Bool) (rng : RngState) :
    MainOutcome μ κ :=
  match startupGpuCheck a.gpu_ids cuda with
  | Except.error e => ⟨⟨[], [], []⟩, [], Except.error e⟩
  | Except.ok info =>
    let r := run env a cuda rng
    ⟨info, r.1, r.2⟩

/-! ### Trace observations -/

/-- The fold indices of the model-construction events of a trace. -/
def builtFolds (evs : List Event) : List Nat :=
  evs.filterMap (fun e =>
    match e with
    | Event.modelBuilt f _ => some f
    | _ => none)

/-- The allocation serial numbers of the model-construction events of a
trace. -/
def builtIds (evs : List Event) : List Nat :=
  evs.filterMap (fun e =>
    match e with
    | Event.modelBuilt _ i => some i
    | _ => none)

/-- Whether an `Except` is a success (helper). -/
def okB : Except ε α → Bool
  | Except.ok _ => true
  | Except.error _ => false

/-! ### Concrete demonstration values -/

/-- A concrete deterministic environment over trivial model and column
types, used by the witnesses. -/
def demoEnv : Env Unit Unit :=
  { buildModel := fun _ _ _ _ _ => ()
    tuneLr := fun _ r => (1, r)
    fit := fun l _ _ r => (l.core, r)
    test := fun _ r => ((fun _ => 1, []), r) }

/-- A concrete configuration: dataset FDD, a single fold, everything else at
the source defaults. -/
def demoArgs : Args := { dataset := some "FDD", n_fold := 1 }

/-- The payload the demonstration fold produces. -/
def demoPayload : FoldPayload Unit Unit :=
  { litUsed := litOf demoArgs ()
    trained := ()
    testResults := [fun _ => 1]
    rngOut := seedState 0 }

/-- The run output of the demonstration configuration. -/
def demoOut : RunOutput Unit Unit :=
  { cvResults := [demoPayload]
    finalResult := colMean ([demoPayload].map (fun p => p.testResults.headI)) }

/-- The demonstration configuration with two folds. -/
def demoArgs2 : Args := { demoArgs with n_fold := 2 }

example : (run demoEnv demoArgs false 0).2 = Except.ok demoOut := rfl

example : (trainOneFold demoEnv demoArgs 1 0 false 0).2 = Except.ok demoPayload := rfl

/-! ### Helper lemmas -/

lemma okB_ex {ε : Type u} {α : Type v} (x : Except ε α) (h : okB x = true) :
    ∃ v, x = Except.ok v := by
  cases x with
  | ok v => exact ⟨v, rfl⟩
  | error e => simp [okB] at h

lemma foldl_min_le_start (v : ℚ) (vs : List ℚ) : vs.foldl min v ≤ v := by
  induction vs generalizing v with
  | nil => exact le_refl v
  | cons a as ih => exact le_trans (ih (min v a)) (min_le_left v a)

lemma foldl_min_le_mem (x : ℚ) :
    ∀ (vs : List ℚ) (v : ℚ), x ∈ vs → vs.foldl min v ≤ x
  | a :: as, v, hx => by
    rcases List.mem_cons.mp hx with h | h
    · subst h
      exact le_trans (foldl_min_le_start (min v x) as) (min_le_right v x)
    · exact foldl_min_le_mem x as (min v a) h

lemma start_le_foldl_max (v : ℚ) (vs : List ℚ) : v ≤ vs.foldl max v := by
  induction vs generalizing v with
  | nil => exact le_refl v
  | cons a as ih => exact le_trans (le_max_left v a) (ih (max v a))

lemma mem_le_foldl_max (x : ℚ) :
    ∀ (vs : List ℚ) (v : ℚ), x ∈ vs → x ≤ vs.foldl max v
  | a :: as, v, hx => by
    rcases List.mem_cons.mp hx with h | h
    · subst h
      exact le_trans (le_max_right v x) (start_le_foldl_max (max v x) as)
    · exact mem_le_foldl_max x as (max v a) h

lemma rangeFrom_length (n : Nat) : ∀ s : Nat, (rangeFrom s n).length = n := by
  induction n with
  | zero => intro s; rfl
  | succ m ih => intro s; simp [rangeFrom, ih (s + 1)]

lemma rangeFrom_chain (n : Nat) :
    ∀ s : Nat, List.Chain' (fun x y => x < y) (rangeFrom s n) := by
  induction n with
  | zero => intro s; simp [rangeFrom]
  | succ m ih =>
    intro s
    cases m with
    | zero => simp [rangeFrom]
    | succ k =>
      have h2 : rangeFrom (s + 1) (k + 1) = (s + 1) :: rangeFrom (s + 2) k := rfl
      have hc := ih (s + 1)
      rw [show rangeFrom s (k + 1 + 1) = s :: rangeFrom (s + 1) (k + 1) from rfl, h2]
      rw [h2] at hc
      exact List.chain'_cons.mpr ⟨Nat.lt_succ_self s, hc⟩

lemma rangeFrom_nodup (n s : Nat) : (rangeFrom s n).Nodup :=
  (List.chain'_iff_pairwise.mp (rangeFrom_chain n s)).imp (fun h => Nat.ne_of_lt h)

lemma builtFolds_append (xs ys : List Event) :
    builtFolds (xs ++ ys) = builtFolds xs ++ builtFolds ys := by
  simp [builtFolds]

lemma builtIds_append (xs ys : List Event) :
    builtIds (xs ++ ys) = builtIds xs ++ builtIds ys := by
  simp [builtIds]

lemma trainOneFold_builtFolds (env : Env μ κ) (a : Args) (fold ctr : Nat)
    (cuda : Bool) (rng : RngState) :
    builtFolds (trainOneFold env a fold ctr cuda rng).1 = [fold] := by
  cases hg : trainerGpus a.gpu_ids cuda with
  | error e => simp [trainOneFold, hg, builtFolds]
  | ok g =>
    cases hlf : a.use_lr_finder <;>
      simp [trainOneFold, hg, hlf, builtFolds]

lemma trainOneFold_builtIds (env : Env μ κ) (a : Args) (fold ctr : Nat)
    (cuda : Bool) (rng : RngState) :
    builtIds (trainOneFold env a fold ctr cuda rng).1 = [ctr] := by
  cases hg : trainerGpus a.gpu_ids cuda with
  | error e => simp [trainOneFold, hg, builtIds]
  | ok g =>
    cases hlf : a.use_lr_finder <;>
      simp [trainOneFold, hg, hlf, builtIds]

lemma trainOneFold_seeds (env : Env μ κ) (a : Args) (fold ctr : Nat)
    (cuda : Bool) (rng : RngState) :
    ((trainOneFold env a fold ctr cuda rng).1).filterMap seedOf = [0] := by
  cases hg : trainerGpus a.gpu_ids cuda with
  | error e => simp [trainOneFold, hg, seedOf]
  | ok g =>
    cases hlf : a.use_lr_finder <;>
      simp [trainOneFold, hg, hlf, seedOf]

lemma trainOneFold_head (env : Env μ κ) (a : Args) (fold ctr : Nat)
    (cuda : Bool) (rng : RngState) :
    ((trainOneFold env a fold ctr cuda rng).1).head? = some (Event.seedSet 0) := by
  cases hg : trainerGpus a.gpu_ids cuda with
  | error e => simp [trainOneFold, hg]
  | ok g =>
    cases hlf : a.use_lr_finder <;>
      simp [trainOneFold, hg, hlf]

lemma trainOneFold_rng (env : Env μ κ) (a : Args) (fold ctr : Nat) (cuda : Bool)
    (r1 r2 : RngState) :
    trainOneFold env a fold ctr cuda r1 = trainOneFold env a fold ctr cuda r2 := rfl

lemma trainOneFold_pos_weight (env : Env μ κ) (a : Args) (fold ctr : Nat)
    (cuda : Bool) (rng : RngState) (p : FoldPayload μ κ)
    (h : (trainOneFold env a fold ctr cuda rng).2 = Except.ok p) :
    p.litUsed.pos_weight = posWeight a.dataset := by
  cases hg : trainerGpus a.gpu_ids cuda with
  | error e => rw [trainOneFold, hg] at h; simp at h
  | ok g =>
    rw [trainOneFold, hg] at h
    cases hlf : a.use_lr_finder <;>
      · simp [hlf] at h
        rw [← h]
        simp [litOf]

lemma trainOneFold_cpu_okB (env : Env μ κ) (a : Args) (fold ctr : Nat)
    (rng : RngState) :
    okB (trainOneFold env a fold ctr false rng).2 = true := by
  simp [trainOneFold, trainerGpus, okB]

lemma runFolds_rng (env : Env μ κ) (a : Args) (cuda : Bool) (fs : List Nat)
    (ctr : Nat) (r1 r2 : RngState) :
    runFolds env a cuda fs ctr r1 = runFolds env a cuda fs ctr r2 := by
  cases fs with
  | nil => rfl
  | cons f fs =>
    simp only [runFolds]
    rw [trainOneFold_rng env a f ctr cuda r1 r2]

lemma runFolds_ok_length (env : Env μ κ) (a : Args) (cuda : Bool) :
    ∀ (fs : List Nat) (ctr : Nat) (rng : RngState) (ps : List (FoldPayload μ κ)),
      (runFolds env a cuda fs ctr rng).2 = Except.ok ps → ps.length = fs.length := by
  intro fs
  induction fs with
  | nil =>
    intro ctr rng ps h
    simp [runFolds] at h
    simp [← h]
  | cons f fs ih =>
    intro ctr rng ps h
    simp only [runFolds] at h
    cases hs : (trainOneFold env a f ctr cuda rng).2 with
    | error e => rw [hs] at h; simp at h
    | ok p =>
      rw [hs] at h
      simp only [] at h
      cases hr : (runFolds env a cuda fs (ctr + 1) p.rngOut).2 with
      | error e => rw [hr] at h; simp at h
      | ok ps2 =>
        rw [hr] at h
        simp at h
        have := ih (ctr + 1) p.rngOut ps2 hr
        simp [← h, List.length_cons, this]

lemma runFolds_trace (env : Env μ κ) (a : Args) (cuda : Bool) :
    ∀ (fs : List Nat) (ctr : Nat) (rng : RngState),
      okB (runFolds env a cuda fs ctr rng).2 = true →
      builtFolds (runFolds env a cuda fs ctr rng).1 = fs ∧
      builtIds (runFolds env a cuda fs ctr rng).1 = rangeFrom ctr fs.length := by
  intro fs
  induction fs with
  | nil => intro ctr rng h; exact ⟨rfl, rfl⟩
  | cons f fs ih =>
    intro ctr rng h
    simp only [runFolds] at h ⊢
    cases hs : (trainOneFold env a f ctr cuda rng).2 with
    | error e => rw [hs] at h; simp [okB] at h
    | ok p =>
      rw [hs] at h
      simp only [] at h ⊢
      cases hr : (runFolds env a cuda fs (ctr + 1) p.rngOut).2 with
      | error e => rw [hr] at h; simp [okB] at h
      | ok ps2 =>
        rw [hr] at h
        simp only [] at h ⊢
        have hih := ih (ctr + 1) p.rngOut (by rw [hr]; rfl)
        constructor
        · rw [builtFolds_append, trainOneFold_builtFolds, hih.1]
          rfl
        · rw [builtIds_append, trainOneFold_builtIds, hih.2]
          simp [rangeFrom, rangeFrom_length]

lemma runFolds_seeds (env : Env μ κ) (a : Args) (cuda : Bool) :
    ∀ (fs : List Nat) (ctr : Nat) (rng : RngState) (s : Nat),
      s ∈ ((runFolds env a cuda fs ctr rng).1).filterMap seedOf → s = 0 := by
  intro fs
  induction fs with
  | nil => intro ctr rng s h; simp [runFolds] at h
  | cons f fs ih =>
    intro ctr rng s h
    simp only [runFolds] at h
    cases hs : (trainOneFold env a f ctr cuda rng).2 with
    | error e =>
      rw [hs] at h
      simp only [] at h
      rw [trainOneFold_seeds] at h
      simpa using h
    | ok p =>
      rw [hs] at h
      simp only [] at h
      cases hr : (runFolds env a cuda fs (ctr + 1) p.rngOut).2 with
      | error e =>
        rw [hr] at h
        simp only [List.filterMap_append, List.mem_append] at h
        rcases h with h | h
        · rw [trainOneFold_seeds] at h; simpa using h
        · exact ih (ctr + 1) p.rngOut s h
      | ok ps2 =>
        rw [hr] at h
        simp only [List.filterMap_append, List.mem_append] at h
        rcases h with h | h
        · rw [trainOneFold_seeds] at h; simpa using h
        · exact ih (ctr + 1) p.rngOut s h

lemma runFolds_cpu (env : Env μ κ) (a : Args) :
    ∀ (fs : List Nat) (ctr : Nat) (rng : RngState),
      okB (runFolds env a false fs ctr rng).2 = true := by
  intro fs
  induction fs with
  | nil => intro ctr rng; rfl
  | cons f fs ih =>
    intro ctr rng
    simp only [runFolds]
    obtain ⟨p, hp⟩ := okB_ex _ (trainOneFold_cpu_okB env a f ctr rng)
    rw [hp]
    simp only []
    obtain ⟨ps, hps⟩ := okB_ex _ (ih (ctr + 1) p.rngOut)
    rw [hps]
    rfl

lemma run_fst (env : Env μ κ) (a : Args) (cuda : Bool) (rng : RngState) :
    (run env a cuda rng).1 = (runFolds env a cuda (rangeFrom 1 a.n_fold) 0 rng).1 := rfl

lemma run_snd (env : Env μ κ) (a : Args) (cuda : Bool) (rng : RngState) :
    (run env a cuda rng).2 =
      ((runFolds env a cuda (rangeFrom 1 a.n_fold) 0 rng).2).map (fun ps =>
        { cvResults := ps
          finalResult := colMean (ps.map (fun p => p.testResults.headI)) }) := rfl

lemma run_cuda_none_error (env : Env μ κ) (a : Args) (rng : RngState)
    (ha : a.gpu_ids = "none") (hna : 1 ≤ a.n_fold) :
    (run env a true rng).2 =
      Except.error "ValueError: invalid literal for int() with base 10: none" := by
  have htg : trainerGpus a.gpu_ids true =
      Except.error "ValueError: invalid literal for int() with base 10: none" := by
    rw [ha]; rfl
  rw [run_snd]
  obtain ⟨m, hm⟩ : ∃ m, a.n_fold = m + 1 := ⟨a.n_fold - 1, by omega⟩
  rw [hm, show rangeFrom 1 (m + 1) = 1 :: rangeFrom 2 m from rfl]
  simp [runFolds, trainOneFold, htg, Except.map]

/-! ### Claim theorems -/

/-- C1: for every completing run with fold count `n_fold ≥ 1`, the final
printed summary is, per metric column, the arithmetic mean of exactly
`n_fold` records, the record taken from each fold being the first element of
that fold's test-result list; in particular for `n_fold = 1` the summary
equals that single fold's record. -/
theorem final_summary_is_mean_of_first_records (env : Env μ κ) (a : Args)
    (cuda : Bool) (rng : RngState) (out : RunOutput μ κ)
    (_hn : 1 ≤ a.n_fold) (h : (run env a cuda rng).2 = Except.ok out) :
    out.cvResults.length = a.n_fold ∧
    (∀ k, out.finalResult k =
      ((out.cvResults.map (fun p => p.testResults.headI k)).sum) / (a.n_fold : ℚ)) ∧
    (∀ p, out.cvResults = [p] → ∀ k, out.finalResult k = p.testResults.headI k) := by
  rw [run_snd] at h
  cases hr : (runFolds env a cuda (rangeFrom 1 a.n_fold) 0 rng).2 with
  | error e => rw [hr] at h; simp [Except.map] at h
  | ok ps =>
    rw [hr] at h
    simp [Except.map] at h
    have hlen : ps.length = a.n_fold := by
      rw [runFolds_ok_length env a cuda _ 0 rng ps hr, rangeFrom_length]
    rw [← h]
    refine ⟨hlen, ?_, ?_⟩
    · intro k
      simp [colMean, List.map_map, Function.comp_def, hlen]
    · intro p hp k
      simp only [] at hp
      subst hp
      simp [colMean]

/-- C1 witness: the demonstration one-fold run. -/
theorem final_summary_witness :
    demoOut.cvResults.length = demoArgs.n_fold ∧
    demoOut.finalResult () =
      ((demoOut.cvResults.map (fun p => p.testResults.headI ())).sum) /
        (demoArgs.n_fold : ℚ) ∧
    demoOut.finalResult () = demoPayload.testResults.headI () := by
  have h := final_summary_is_mean_of_first_records demoEnv demoArgs false 0 demoOut
    (by decide) (by rfl)
  exact ⟨h.1, h.2.1 (), h.2.2 demoPayload (by rfl) ()⟩

/-- C2: the checkpoint callback built for each fold uses mode `min` exactly
when the string "loss" occurs in the monitor name and mode `max` otherwise;
under `min` the kept checkpoint carries the minimum observed monitored value,
under `max` the maximum; in particular `val_loss` selects `min` and `val_auc`
selects `max`. -/
theorem checkpoint_mode_min_iff_loss (monitor : String) (v : ℚ) (vs : List ℚ) :
    (checkpointMode monitor = CkptMode.min ↔ pyContains monitor "loss" = true) ∧
    (pyContains monitor "loss" = true →
      keptCheckpoint monitor v vs ≤ v ∧ ∀ x ∈ vs, keptCheckpoint monitor v vs ≤ x) ∧
    (pyContains monitor "loss" = false →
      v ≤ keptCheckpoint monitor v vs ∧ ∀ x ∈ vs, x ≤ keptCheckpoint monitor v vs) ∧
    checkpointMode "val_loss" = CkptMode.min ∧
    checkpointMode "val_auc" = CkptMode.max := by
  refine ⟨?_, ?_, ?_, rfl, rfl⟩
  · cases hpc : pyContains monitor "loss" with
    | false => simp [checkpointMode, hpc]
    | true => simp [checkpointMode, hpc]
  · intro hpc
    have hm : keptCheckpoint monitor v vs = vs.foldl min v := by
      simp [keptCheckpoint, checkpointMode, hpc]
    rw [hm]
    exact ⟨foldl_min_le_start v vs, fun x hx => foldl_min_le_mem x vs v hx⟩
  · intro hpc
    have hm : keptCheckpoint monitor v vs = vs.foldl max v := by
      simp [keptCheckpoint, checkpointMode, hpc]
    rw [hm]
    exact ⟨start_le_foldl_max v vs, fun x hx => mem_le_foldl_max x vs v hx⟩

/-- C2 witness at concrete monitors and observed values. -/
theorem checkpoint_mode_witness :
    keptCheckpoint "val_loss" 3 [2, 5] ≤ 2 ∧ 5 ≤ keptCheckpoint "val_auc" 3 [2, 5] := by
  constructor
  · exact ((checkpoint_mode_min_iff_loss "val_loss" 3 [2, 5]).2.1 (by rfl)).2 2 (by decide)
  · exact ((checkpoint_mode_min_iff_loss "val_auc" 3 [2, 5]).2.2.1 (by rfl)).2 5 (by decide)

/-- C3 counterexample: with the all-digit gpu ids "0,1" on a machine without
CUDA, the startup does not crash and the run proceeds, but no warning is
displayed: the `warnings.warn` call is made, and the module-level
`warnings.filterwarnings("ignore")` suppresses it — refuting the claim's
"a warning is emitted" part at this concrete input. -/
theorem cpu_gpu_warning_suppressed_counterexample :
    okB (mainProgram demoEnv { demoArgs with gpu_ids := "0,1" } false 0).result = true ∧
    (mainProgram demoEnv { demoArgs with gpu_ids := "0,1" } false 0).startup.warnCalled
      = [cpuWarnMsg] ∧
    (mainProgram demoEnv { demoArgs with gpu_ids := "0,1" } false 0).startup.warnShown
      = [] :=
  ⟨rfl, rfl, rfl⟩

/-- C3 amended: for every all-digit gpu_ids string on a machine without CUDA,
the process does not crash at startup and the run proceeds on CPU; the GPU
request is degraded to a `warnings.warn` call carrying the CPU-only message,
but the module-level ignore filter suppresses it, so no warning is actually
displayed; the CUDA environment variables are still set. -/
theorem cpu_gpu_warning_amended (env : Env μ κ) (a : Args) (rng : RngState)
    (hdig : (gpuItems a.gpu_ids).all pyIsDigit = true) :
    (mainProgram env a false rng).startup.warnCalled = [cpuWarnMsg] ∧
    (mainProgram env a false rng).startup.warnShown = [] ∧
    (mainProgram env a false rng).startup.envSet =
      [("CUDA_DEVICE_ORDER", "PCI_BUS_ID"), ("CUDA_VISIBLE_DEVICES", a.gpu_ids)] ∧
    okB (mainProgram env a false rng).result = true := by
  have hne : a.gpu_ids ≠ "none" := by
    intro he
    rw [he] at hdig
    exact absurd hdig (by decide)
  have hstart : startupGpuCheck a.gpu_ids false =
      Except.ok ⟨[cpuWarnMsg], [], [("CUDA_DEVICE_ORDER", "PCI_BUS_ID"),
        ("CUDA_VISIBLE_DEVICES", a.gpu_ids)]⟩ := by
    simp [startupGpuCheck, hne, hdig, shownWarnings, warnFilterAction]
  have hok : okB (run env a false rng).2 = true := by
    rw [run_snd]
    obtain ⟨ps, hps⟩ := okB_ex _ (runFolds_cpu env a (rangeFrom 1 a.n_fold) 0 rng)
    rw [hps]
    rfl
  refine ⟨?_, ?_, ?_, ?_⟩ <;> simp [mainProgram, hstart, hok]

/-- C3 witness for the amended statement, at gpu_ids "0,1". -/
theorem cpu_gpu_warning_witness :
    (mainProgram demoEnv { demoArgs with gpu_ids := "0,1" } false 0).startup.warnShown
      = [] ∧
    okB (mainProgram demoEnv { demoArgs with gpu_ids := "0,1" } false 0).result = true := by
  have h := cpu_gpu_warning_amended demoEnv { demoArgs with gpu_ids := "0,1" } 0 (by decide)
  exact ⟨h.2.1, h.2.2.2⟩

/-- C4: a gpu_ids value other than "none" holding a comma item that is not
all digits is rejected by the startup assert before `run` is entered: the
outcome is the AssertionError with an empty event trace, so in particular no
data loading and no training occurred. -/
theorem malformed_gpu_ids_rejected_at_startup (env : Env μ κ) (a : Args)
    (cuda : Bool) (rng : RngState) (hne : a.gpu_ids ≠ "none") (item : String)
    (hmem : item ∈ gpuItems a.gpu_ids) (hbad : pyIsDigit item = false) :
    mainProgram env a cuda rng =
      ⟨⟨[], [], []⟩, [], Except.error "unrecognizable gpu ids"⟩ := by
  have hall : (gpuItems a.gpu_ids).all pyIsDigit = false := by
    cases hv : (gpuItems a.gpu_ids).all pyIsDigit with
    | false => rfl
    | true =>
      have hx := (List.all_eq_true.mp hv) item hmem
      rw [hbad] at hx
      simp at hx
  have hstart : startupGpuCheck a.gpu_ids cuda =
      Except.error "unrecognizable gpu ids" := by
    simp [startupGpuCheck, hne, hall]
  simp [mainProgram, hstart]

/-- C4 witness: gpu_ids "abc" is rejected with an empty trace. -/
theorem malformed_gpu_ids_witness :
    mainProgram demoEnv { demoArgs with gpu_ids := "abc" } false 0 =
      ⟨⟨[], [], []⟩, [], Except.error "unrecognizable gpu ids"⟩ :=
  malformed_gpu_ids_rejected_at_startup demoEnv { demoArgs with gpu_ids := "abc" }
    false 0 (by decide) "abc" (by decide) (by decide)

/-- C5 counterexample: the `--dataset` flag is not required: an invocation
that omits it is accepted by the parser and yields the default `None`,
refuting the claim that omission is rejected at argument-parsing time. -/
theorem dataset_flag_omission_accepted : parseDatasetArg none = Except.ok none := rfl

/-- C5 amended: a supplied `--dataset` value outside the choices FDD, URFD is
rejected at argument-parsing time, but the flag is optional: omitting it is
accepted and parses to the default `None`, as the code passes no
`required=True`. -/
theorem dataset_flag_choice_checked (v : String) :
    ((v = "FDD" ∨ v = "URFD") → parseDatasetArg (some v) = Except.ok (some v)) ∧
    (v ≠ "FDD" → v ≠ "URFD" →
      parseDatasetArg (some v) = Except.error "argument --dataset: invalid choice") ∧
    parseDatasetArg none = Except.ok none := by
  refine ⟨?_, ?_, rfl⟩
  · rintro (rfl | rfl) <;> rfl
  · intro h1 h2
    have hnm : v ∉ datasetChoices := by
      simp [datasetChoices, h1, h2]
    simp [parseDatasetArg, hnm]

/-- C5 witness for the amended statement at concrete flag values. -/
theorem dataset_flag_choice_witness :
    parseDatasetArg (some "FDD") = Except.ok (some "FDD") ∧
    parseDatasetArg (some "MNIST") =
      Except.error "argument --dataset: invalid choice" :=
  ⟨(dataset_flag_choice_checked "FDD").1 (Or.inl rfl),
   (dataset_flag_choice_checked "MNIST").2.1 (by decide) (by decide)⟩

/-- C6: in every fold, the positive-class weight attached to the wrapped
model is the constant 2 when the dataset is FDD, 2 when it is URFD, and 1 for
any other dataset value. -/
theorem pos_weight_by_dataset (env : Env μ κ) (a : Args) (fold ctr : Nat)
    (cuda : Bool) (rng : RngState) (p : FoldPayload μ κ)
    (h : (trainOneFold env a fold ctr cuda rng).2 = Except.ok p) :
    (a.dataset = some "FDD" → p.litUsed.pos_weight = 2) ∧
    (a.dataset = some "URFD" → p.litUsed.pos_weight = 2) ∧
    (a.dataset ≠ some "FDD" → a.dataset ≠ some "URFD" →
      p.litUsed.pos_weight = 1) := by
  have hw := trainOneFold_pos_weight env a fold ctr cuda rng p h
  refine ⟨?_, ?_, ?_⟩
  · intro hd; rw [hw]; simp [posWeight, hd]
  · intro hd; rw [hw]; simp [posWeight, hd]
  · intro h1 h2; rw [hw]; simp [posWeight, h1, h2]

/-- C6 witness at the demonstration fold, whose dataset is FDD. -/
theorem pos_weight_witness : demoPayload.litUsed.pos_weight = 2 :=
  (pos_weight_by_dataset demoEnv demoArgs 1 0 false 0 demoPayload (by rfl)).1 (by rfl)

/-- C7: determinism of the orchestrator: with the external collaborators
modelled as deterministic functions (the code requests `deterministic=True`
and reseeds before building the model), the entire outcome of
`train_one_fold` — trace and per-fold metric records — depends only on the
environment, configuration, fold index and allocation counter; in particular
it is independent of the incoming global RNG state, and so is a whole run. -/
theorem train_one_fold_deterministic (env : Env μ κ) (a : Args) (fold ctr : Nat)
    (cuda : Bool) (r1 r2 : RngState) :
    trainOneFold env a fold ctr cuda r1 = trainOneFold env a fold ctr cuda r2 ∧
    run env a cuda r1 = run env a cuda r2 := by
  refine ⟨rfl, ?_⟩
  have hrf := runFolds_rng env a cuda (rangeFrom 1 a.n_fold) 0 r1 r2
  simp [run, hrf]

/-- C8: a completing run invokes the per-fold orchestrator exactly once per
fold index from 1 to `n_fold`, in strictly increasing order, and every
invocation constructs a fresh model instance: the model-allocation serial
numbers along the trace are pairwise distinct. -/
theorem folds_visited_in_order_with_fresh_models (env : Env μ κ) (a : Args)
    (cuda : Bool) (rng : RngState)
    (h : okB (run env a cuda rng).2 = true) :
    builtFolds (run env a cuda rng).1 = rangeFrom 1 a.n_fold ∧
    List.Chain' (fun x y => x < y) (builtFolds (run env a cuda rng).1) ∧
    builtIds (run env a cuda rng).1 = rangeFrom 0 a.n_fold ∧
    (builtIds (run env a cuda rng).1).Nodup := by
  have hok : okB (runFolds env a cuda (rangeFrom 1 a.n_fold) 0 rng).2 = true := by
    rw [run_snd] at h
    cases hr : (runFolds env a cuda (rangeFrom 1 a.n_fold) 0 rng).2 with
    | error e => rw [hr] at h; simp [Except.map, okB] at h
    | ok ps => rfl
  have ht := runFolds_trace env a cuda (rangeFrom 1 a.n_fold) 0 rng hok
  rw [run_fst]
  refine ⟨ht.1, ?_, ?_, ?_⟩
  · rw [ht.1]; exact rangeFrom_chain a.n_fold 1
  · rw [ht.2, rangeFrom_length]
  · rw [ht.2, rangeFrom_length]; exact rangeFrom_nodup a.n_fold 0

/-- C8 witness at the concrete two-fold demonstration run. -/
theorem folds_visited_witness :
    builtFolds (run demoEnv demoArgs2 false 0).1 = rangeFrom 1 demoArgs2.n_fold ∧
    List.Chain' (fun x y => x < y) (builtFolds (run demoEnv demoArgs2 false 0).1) ∧
    builtIds (run demoEnv demoArgs2 false 0).1 = rangeFrom 0 demoArgs2.n_fold ∧
    (builtIds (run demoEnv demoArgs2 false 0).1).Nodup :=
  folds_visited_in_order_with_fresh_models demoEnv demoArgs2 false 0 (by rfl)

/-- C9: on a CUDA-capable machine, leaving `--gpu_ids` at its default "none"
makes the trainer's GPU-list construction evaluate `int("none")`, which
raises `ValueError` and aborts the run; consequently every run that succeeds
on such a machine has a gpu_ids value that is not "none" and whose comma
items are all digits. -/
theorem cuda_default_gpu_ids_value_error (env : Env μ κ) (a b : Args)
    (rng : RngState) (ha : a.gpu_ids = "none") (hna : 1 ≤ a.n_fold)
    (hnb : 1 ≤ b.n_fold) :
    pyInt "none" =
      Except.error "ValueError: invalid literal for int() with base 10: none" ∧
    (mainProgram env a true rng).result =
      Except.error "ValueError: invalid literal for int() with base 10: none" ∧
    (okB (mainProgram env b true rng).result = true →
      b.gpu_ids ≠ "none" ∧ (gpuItems b.gpu_ids).all pyIsDigit = true) := by
  have hstartA : startupGpuCheck a.gpu_ids true = Except.ok ⟨[], [], []⟩ := by
    rw [ha]; rfl
  refine ⟨rfl, ?_, ?_⟩
  · simp [mainProgram, hstartA, run_cuda_none_error env a rng ha hna]
  · intro hok
    by_cases hb : b.gpu_ids = "none"
    · exfalso
      have hstartB : startupGpuCheck b.gpu_ids true = Except.ok ⟨[], [], []⟩ := by
        rw [hb]; rfl
      rw [mainProgram, hstartB] at hok
      simp [run_cuda_none_error env b rng hb hnb, okB] at hok
    · refine ⟨hb, ?_⟩
      cases hall : (gpuItems b.gpu_ids).all pyIsDigit with
      | true => rfl
      | false =>
        exfalso
        have hstartB : startupGpuCheck b.gpu_ids true =
            Except.error "unrecognizable gpu ids" := by
          simp [startupGpuCheck, hb, hall]
        rw [mainProgram, hstartB] at hok
        simp [okB] at hok

/-- C9 witness: the default configuration on a CUDA machine aborts with the
int ValueError. -/
theorem cuda_default_witness :
    (mainProgram demoEnv demoArgs true 0).result =
      Except.error "ValueError: invalid literal for int() with base 10: none" :=
  (cuda_default_gpu_ids_value_error demoEnv demoArgs demoArgs 0 rfl
    (by decide) (by decide)).2.1

/-- C10: every invocation of the per-fold orchestrator begins by reseeding
the global RNG with the hardcoded constant 0 — its trace starts with the
seed event 0 for every configuration (the flag set contains no seed flag) —
and every seed event in any whole run's trace carries the seed 0, so every
fold of every run begins from the identical RNG state. -/
theorem fold_reseeds_zero (env : Env μ κ) (a : Args) (fold ctr : Nat)
    (cuda : Bool) (rng0 : RngState) :
    ((trainOneFold env a fold ctr cuda rng0).1).head? = some (Event.seedSet 0) ∧
    (∀ s, s ∈ ((run env a cuda rng0).1).filterMap seedOf → s = 0) := by
  refine ⟨trainOneFold_head env a fold ctr cuda rng0, ?_⟩
  intro s hs
  rw [run_fst] at hs
  exact runFolds_seeds env a cuda (rangeFrom 1 a.n_fold) 0 rng0 s hs

/-- C10 witness at the demonstration configuration. -/
theorem fold_reseeds_zero_witness :
    ((trainOneFold demoEnv demoArgs 1 0 false 0).1).head? = some (Event.seedSet 0) ∧
    (0 : Nat) = 0 :=
  ⟨(fold_reseeds_zero demoEnv demoArgs 1 0 false 0).1,
   (fold_reseeds_zero demoEnv demoArgs 1 0 false 0).2 0 (by decide)⟩

end FnB
